import Mathlib

/-!
Verification of the social-media agent (src/venv/app.py, src/venv/main.py).

Strings are modelled as lists of characters (`Str`), external collaborators
(Twitter API, LLM responses, news lookups, `random` draws) as explicit
parameters, and each Python function of interest as a total Lean function
translated from its source.
-/

namespace App

/-- Python `str` values are modelled as lists of characters. -/
abbrev Str := List Char

/-- Conversion from a Lean string literal to the `Str` model. -/
def str (s : String) : Str := s.data

/-! ## Trend Source Chain (`SocialMediaAIAgent.fetch_trends`, app.py lines 384-440) -/

/-- The static curated topic list of `get_fallback_topics` (app.py lines 255-272). -/
def fallback_topics : List Str :=
  [str ("technology advancements"), str ("sustainable living"), str ("health breakthroughs"),
   str ("remote work productivity"), str ("digital marketing strategies"), str ("AI ethics"),
   str ("climate solutions"), str ("entrepreneurship tips"), str ("financial literacy"),
   str ("productivity hacks"), str ("mental health awareness"), str ("educational innovations"),
   str ("technological innovation"), str ("sustainable travel"), str ("nutrition science"),
   str ("fitness trends"), str ("stress management"), str ("influential books"),
   str ("film analysis"), str ("music production"), str ("ethical fashion"),
   str ("photography techniques"), str ("sports science"), str ("home organization"),
   str ("sustainable gardening"), str ("pet health"), str ("effective parenting"),
   str ("career development"), str ("data privacy"), str ("renewable energy"),
   str ("medical research"), str ("space exploration")]

/-- Outcome of the external discovery strategies observed by `fetch_trends`:
`none` models a raised exception (caught by the surrounding `try`), `some l`
the list the strategy returned.  `sample` is the draw `random.sample(topics,
random.randint(3, 5))` made by `get_fallback_topics`. -/
structure TrendOutcomes where
  api_v1 : Option (List Str)
  api_v2 : Option (List Str)
  scraping : Option (List Str)
  sample : List Str

/-- The sequential strategy chain of `fetch_trends` (app.py lines 390-424):
each strategy is tried only while `twitter_trends` is still empty, every
exception is caught and leaves the accumulator unchanged, and the static
fallback sample is used last. -/
def trend_chain (o : TrendOutcomes) : List Str :=
  let t1 := o.api_v1.getD []
  if t1 ≠ [] then t1 else
  let t2 := o.api_v2.getD []
  if t2 ≠ [] then t2 else
  let t3 := o.scraping.getD []
  if t3 ≠ [] then t3 else o.sample

/-- The post-filter of `fetch_trends` (app.py lines 429-435): keep a trend only
if it is truthy (non-empty), shorter than 50 characters, and does not start
with `'http'`. -/
def keep_trend (t : Str) : Bool :=
  !t.isEmpty && decide (t.length < 50) && !(str ("http")).isPrefixOf t

/-- `fetch_trends` (app.py lines 384-440): the twitter chain runs only when
`"twitter"` is in `self.platforms`, and the collected trends are filtered. -/
def fetch_trends (platforms : List Str) (o : TrendOutcomes) : List Str :=
  let all_trends := if str ("twitter") ∈ platforms then trend_chain o else []
  all_trends.filter keep_trend

/-- The hardcoded emergency topics of `run_daily_post` (app.py line 928). -/
def emergency_topics : List Str :=
  [str ("social media"), str ("digital marketing"), str ("technology")]

/-- Topic selection of `run_daily_post` (app.py lines 922-929): substitute the
emergency list when `fetch_trends` returned nothing. -/
def run_daily_topics (fetched : List Str) : List Str :=
  if fetched.isEmpty then emergency_topics else fetched

/-! ## Image selection (`SocialMediaAIAgent.get_relevant_image_url`, app.py lines 442-470) -/

/-- Characters matched by Python `re.findall(backslash-w+, s)` tokens. -/
def isWordChar (c : Char) : Bool := c.isAlphanum || c == '_'

/-- Shared tokenizer: `splitAux p s acc` collects the maximal runs of
characters satisfying `p`, with `acc` the (reversed) run in progress.  It
models both `str.split()` (runs of non-whitespace) and `re.findall(backslash-w+, s)`
(runs of word characters). -/
def splitAux (p : Char → Bool) : List Char → List Char → List (List Char)
  | [], acc => if acc.isEmpty then [] else [acc.reverse]
  | c :: rest, acc =>
    if p c then splitAux p rest (c :: acc)
    else if acc.isEmpty then splitAux p rest []
    else acc.reverse :: splitAux p rest []

/-- Maximal runs of characters satisfying `p`. -/
def fieldsBy (p : Char → Bool) (s : Str) : List Str := splitAux p s []

/-- Python `s.split()`: whitespace-separated tokens. -/
def wsTokens (s : Str) : List Str := fieldsBy (fun c => !c.isWhitespace) s

/-- Python `re.findall(backslash-w+, s)`: word tokens. -/
def wordTokens (s : Str) : List Str := fieldsBy isWordChar s

/-- Python `s.lower()`. -/
def toLowerStr (s : Str) : Str := s.map Char.toLower

/-- Python `needle in hay` substring containment. -/
def isSubstrOf (needle : Str) : Str → Bool
  | [] => needle.isEmpty
  | c :: rest => needle.isPrefixOf (c :: rest) || isSubstrOf needle rest

/-- `random.choice(l)` modelled by an arbitrary draw index reduced modulo the
length of the list. -/
def choiceD (l : List Str) (k : Nat) : Str := l.getD (k % l.length) []

/-- The "technology" image list of `self.image_database` (app.py lines 77-81). -/
def technology_images : List Str :=
  [str ("https://images.unsplash.com/photo-1518770660439-4636190af475"),
   str ("https://images.unsplash.com/photo-1526374965328-7f61d4dc18c5"),
   str ("https://images.unsplash.com/photo-1504384764586-bb4cdc1707b0")]

/-- The "health" image list (app.py lines 82-86). -/
def health_images : List Str :=
  [str ("https://images.unsplash.com/photo-1505576399279-565b52d4ac71"),
   str ("https://images.unsplash.com/photo-1498837167922-ddd27525d352"),
   str ("https://images.unsplash.com/photo-1506126613408-eca07ce68773")]

/-- The "default" image list (app.py lines 127-131). -/
def default_images : List Str :=
  [str ("https://images.unsplash.com/photo-1496449903678-68ddcb189a24"),
   str ("https://images.unsplash.com/photo-1522199755839-a2bacb67c546"),
   str ("https://images.unsplash.com/photo-1554774853-d50f9c681ae2")]

/-- `self.image_database` (app.py lines 76-132), in insertion order. -/
def image_database : List (Str × List Str) :=
  [(str ("technology"), technology_images),
   (str ("health"), health_images),
   (str ("business"),
    [str ("https://images.unsplash.com/photo-1560472355-536de3962603"),
     str ("https://images.unsplash.com/photo-1486406146926-c627a92ad1ab"),
     str ("https://images.unsplash.com/photo-1507679799987-c73779587ccf")]),
   (str ("nature"),
    [str ("https://images.unsplash.com/photo-1470071459604-3b5ec3a7fe05"),
     str ("https://images.unsplash.com/photo-1441974231531-c6227db76b6e"),
     str ("https://images.unsplash.com/photo-1472214103451-9374bd1c798e")]),
   (str ("travel"),
    [str ("https://images.unsplash.com/photo-1500835556837-99ac94a94552"),
     str ("https://images.unsplash.com/photo-1476514525535-07fb3b4ae5f1"),
     str ("https://images.unsplash.com/photo-1502602898657-3e91760cbb34")]),
   (str ("food"),
    [str ("https://images.unsplash.com/photo-1504674900247-0877df9cc836"),
     str ("https://images.unsplash.com/photo-1512621776951-a57141f2eefd"),
     str ("https://images.unsplash.com/photo-1476224203421-9ac39bcb3327")]),
   (str ("sports"),
    [str ("https://images.unsplash.com/photo-1461896836934-ffe607ba8211"),
     str ("https://images.unsplash.com/photo-1517649763962-0c623066013b"),
     str ("https://images.unsplash.com/photo-1541534741688-6078c6bfb5c5")]),
   (str ("education"),
    [str ("https://images.unsplash.com/photo-1503676260728-1c00da094a0b"),
     str ("https://images.unsplash.com/photo-1523050854058-8df90110c9f1"),
     str ("https://images.unsplash.com/photo-1509062522246-3755977927d7")]),
   (str ("finance"),
    [str ("https://images.unsplash.com/photo-1565514020179-026b92b4a5b0"),
     str ("https://images.unsplash.com/photo-1579170053380-58a5b2c13ff6"),
     str ("https://images.unsplash.com/photo-1620714223084-8fcacc6dfd8d")]),
   (str ("science"),
    [str ("https://images.unsplash.com/photo-1507668077129-56e32842523b"),
     str ("https://images.unsplash.com/photo-1564325724739-bae0bd08762c"),
     str ("https://images.unsplash.com/photo-1532094349884-543bc11b234d")]),
   (str ("default"), default_images)]

/-- First category of the table accepted by `f`, returning its URL list. -/
def first_match (f : Str × List Str → Bool) : List (Str × List Str) → Option (List Str)
  | [] => none
  | e :: rest => if f e then some e.2 else first_match f rest

/-- The exact-match pass of `get_relevant_image_url` (app.py lines 448-452):
first category whose lowercased name is a substring of the lowercased topic. -/
def exact_match (topic_lower : Str) : Option (List Str) :=
  first_match (fun e => isSubstrOf (toLowerStr e.1) topic_lower) image_database

/-- The partial-match pass (app.py lines 455-465): skip "default"; accept a
category if some word token of the topic contains it or is contained in it. -/
def partial_match (topic_lower : Str) : Option (List Str) :=
  first_match
    (fun e =>
      !(e.1 == str ("default")) &&
        (wordTokens topic_lower).any (fun w => isSubstrOf w e.1 || isSubstrOf e.1 w))
    image_database

/-- `get_relevant_image_url` (app.py lines 442-470): exact substring match
first, then partial word match, else the default category; selection within a
category is `random.choice`, modelled by the draw index `k`. -/
def get_relevant_image_url (topic : Str) (k : Nat) : Str :=
  let topic_lower := toLowerStr topic
  match exact_match topic_lower with
  | some urls => choiceD urls k
  | none =>
    match partial_match topic_lower with
    | some urls => choiceD urls k
    | none => choiceD default_images k

/-! ## Content Generator (app.py lines 472-782)

Each generation strategy is modelled on its success path; a raised exception
or a missing credential makes the Python code delegate to the next strategy,
which is modelled separately.  The nondeterministic pieces (the raw LLM
response after stripping, the random draws, the news lookup) are parameters. -/

/-- The per-platform character limits.  The same table appears in
`generate_content_gemini` (`platform_specs`, app.py lines 496-521, default
300), `generate_content_huggingface` (app.py lines 655-659) and
`generate_content_fallback` (app.py lines 730-734). -/
def platform_max_length (platform : Str) : Nat :=
  if platform = str ("twitter") then 250
  else if platform = str ("facebook") then 400
  else if platform = str ("instagram") then 300
  else 300

/-- The ellipsis marker appended on truncation. -/
def ellipsis : Str := str ("...")

/-- The truncation step shared by all three strategies (e.g. app.py lines
556-557): when the text exceeds the limit, keep the first `max - 3`
characters and append `"..."`. -/
def truncate_to_limit (content : Str) (max_length : Nat) : Str :=
  if max_length < content.length then content.take (max_length - 3) ++ ellipsis
  else content

/-- The content dictionary built by every generation strategy:
`{"text": ..., "image_url": ..., "post_type": ...}` plus an optional
`"article_url"` for news posts. -/
structure GeneratedContent where
  text : Str
  image_url : Option Str
  post_type : Str
  article_url : Option Str

/-- `generate_content_gemini` on its success path (app.py lines 472-575):
`response` is the stripped Gemini reply, `news_url` the URL of the first
fetched news article if any. -/
def generate_content_gemini (response topic platform post_type : Str)
    (include_image : Bool) (img_pick : Nat) (news_url : Option Str) : GeneratedContent :=
  ⟨truncate_to_limit response (platform_max_length platform),
   if include_image then some (get_relevant_image_url topic img_pick) else none,
   post_type,
   if post_type = str ("news") then news_url else none⟩

/-- Python `token.startswith(c)` for a single character. -/
def startsWithChar (t : Str) (c : Char) : Bool :=
  match t with
  | [] => false
  | a :: _ => a == c

/-- Python `c in s` for a single character. -/
def containsChar (s : Str) (c : Char) : Bool := s.any (fun a => a == c)

/-- The hashtag test of `generate_content_huggingface` (app.py line 632):
`any(tag.startswith(&quot;#&quot;) for tag in content.split())`. -/
def has_hashtag_token (s : Str) : Bool :=
  (wsTokens s).any (fun t => startsWithChar t '#')

/-- Python `" ".join(l)`. -/
def join_space : List Str → Str
  | [] => []
  | [t] => t
  | t :: rest => t ++ ' ' :: join_space rest

/-- The hashtags built from the topic (app.py lines 633-637): one `#word`
for each word token of the topic longer than 3 characters. -/
def hf_hashtags (topic : Str) : List Str :=
  ((wordTokens topic).filter (fun w => 3 < w.length)).map (fun w => '#' :: w)

/-- The hashtag post-processing step of `generate_content_huggingface`
(app.py lines 631-641): when no split token starts with `#` and the hashtag
list is non-empty, append up to two hashtags after a blank line. -/
def hf_add_hashtags (content topic : Str) : Str :=
  if has_hashtag_token content then content
  else if (hf_hashtags topic).isEmpty then content
  else content ++ str ("\n\n") ++ join_space ((hf_hashtags topic).take 2)

/-- The canned engagement questions (app.py lines 645-651). -/
def engagement_questions : List Str :=
  [str ("What do you think?"),
   str ("Have you experienced this?"),
   str ("What\x27s your take on this?"),
   str ("How does this impact you?"),
   str ("Would you like to learn more about this topic?")]

/-- The engagement post-processing step (app.py lines 644-652): when the text
has no question mark and the post type is not "question", append a randomly
chosen engagement question after a space. -/
def hf_add_engagement (content post_type : Str) (q_pick : Nat) : Str :=
  if containsChar content '?' = true ∨ post_type = str ("question") then content
  else content ++ ' ' ::
    engagement_questions.getD (q_pick % engagement_questions.length) []

/-- The full post-processing pipeline of `generate_content_huggingface`
applied to the raw generated text, before truncation. -/
def hf_post_process (generated topic post_type : Str) (q_pick : Nat) : Str :=
  hf_add_engagement (hf_add_hashtags generated topic) post_type q_pick

/-- `generate_content_huggingface` on its success path (app.py lines
581-679): `generated` is the reply after removing the prompt and stripping. -/
def generate_content_huggingface (generated topic platform post_type : Str)
    (include_image : Bool) (img_pick q_pick : Nat) (news_url : Option Str) :
    GeneratedContent :=
  ⟨truncate_to_limit (hf_post_process generated topic post_type q_pick)
     (platform_max_length platform),
   if include_image then some (get_relevant_image_url topic img_pick) else none,
   post_type,
   if post_type = str ("news") then news_url else none⟩

/-- The static template table of `generate_content_fallback` (app.py lines
694-723), with `{topic}` substituted and `tag` standing for
`topic.replace(" ", "")`.  Unknown post types fall back to the
"informative" templates, as `templates.get(post_type, templates["informative"])`
does (app.py line 726). -/
def fallback_templates (post_type topic : Str) : List Str :=
  let tag := topic.filter (fun c => !(c == ' '))
  if post_type = str ("question") then
    [str ("\u00F0\u0178\u00A4\u201D What\x27s your experience with ") ++ topic ++ str ("? I\x27m curious to hear different perspectives on this important topic! #discussion #") ++ tag,
     str ("\u00E2\u201C If you could change one thing about ") ++ topic ++ str (", what would it be and why? Share your thoughts below! #feedback #") ++ tag]
  else if post_type = str ("statistic") then
    [str ("\u00F0\u0178\u201C\u0160 Surprising statistic: The latest research on ") ++ topic ++ str (" shows significant developments. Did you expect these numbers? #data #") ++ tag,
     str ("\u00F0\u0178\u201C\u02C6 The numbers don\x27t lie: ") ++ topic ++ str (" is changing rapidly. Here\x27s what the latest data reveals about where things are headed. What do these trends mean for you? #statistics #") ++ tag]
  else if post_type = str ("tip") then
    [str ("\u00F0\u0178\u2019\u00A1 Pro tip for ") ++ topic ++ str (": This approach can save you time and improve results. What strategies have worked for you? #helpful #") ++ tag,
     str ("\u00E2\u0153\u2026 Quick tip that improved my approach to ") ++ topic ++ str (": This simple change made a significant difference. What tips would you add? #productivity #") ++ tag]
  else if post_type = str ("news") then
    [str ("\u00F0\u0178\u201D\u201D Breaking update on ") ++ topic ++ str (": Recent developments are changing how we understand this issue. What\x27s your take on these changes? #update #") ++ tag,
     str ("\u00F0\u0178\u201C\u00B0 Just in: Important news about ") ++ topic ++ str (" that everyone should know. How might this affect your approach? #currentevents #") ++ tag]
  else if post_type = str ("opinion") then
    [str ("\u00F0\u0178\u2019\u00AD My perspective on ") ++ topic ++ str (": After researching this topic, I\x27ve come to an interesting conclusion. Do you agree or see it differently? #perspective #") ++ tag,
     str ("\u00F0\u0178\u00A7\u00A0 Unpopular opinion about ") ++ topic ++ str (": This viewpoint challenges conventional wisdom but deserves consideration. Where do you stand on this? #thoughtleadership #") ++ tag]
  else if post_type = str ("resource") then
    [str ("\u00F0\u0178\u201D\u2014 Just discovered an excellent resource on ") ++ topic ++ str (" that\x27s worth checking out. What resources have you found helpful? #useful #") ++ tag,
     str ("\u00F0\u0178\u201C\u0161 For anyone interested in ") ++ topic ++ str (", this comprehensive guide covers everything you need to know. What other resources would you recommend? #learning #") ++ tag]
  else
    [str ("\u00F0\u0178\u201C\u0161 Did you know? Here\x27s an interesting fact about ") ++ topic ++ str (" that most people don\x27t realize. Learning about this changed my perspective! #informative #") ++ tag,
     str ("\u00F0\u0178\u201D Understanding ") ++ topic ++ str (" is essential in today\x27s world. Here\x27s what you need to know and why it matters. Have you explored this topic before? #knowledgeshare #") ++ tag]

/-- The template picked by `random.choice(type_templates)` (app.py line 727),
with the draw modelled by `t_pick`. -/
def fallback_choice (post_type topic : Str) (t_pick : Nat) : Str :=
  let ts := fallback_templates post_type topic
  ts.getD (t_pick % ts.length) []

/-- `generate_content_fallback` (app.py lines 685-759). -/
def generate_content_fallback (topic platform post_type : Str)
    (t_pick : Nat) (include_image : Bool) (img_pick : Nat) (news_url : Option Str) :
    GeneratedContent :=
  ⟨truncate_to_limit (fallback_choice post_type topic t_pick)
     (platform_max_length platform),
   if include_image then some (get_relevant_image_url topic img_pick) else none,
   post_type,
   if post_type = str ("news") then news_url else none⟩

/-! ## Publisher (`post_to_twitter` / `post_content`, app.py lines 784-873) -/

/-- The external outcomes observed by `post_to_twitter`: whether the API
client was configured, whether the image download returned HTTP 200 without
raising, whether the media upload succeeded, the media id it produced, and
whether `create_tweet` succeeded (a `False` models the exception caught at
app.py lines 845-847). -/
structure TwitterEnv where
  api_configured : Bool
  img_download_ok : Bool
  media_upload_ok : Bool
  media_id_val : Nat
  create_tweet_ok : Bool

/-- The text assembly step of `post_to_twitter` (app.py lines 792-798):
append the article URL on a new line when present and the combined length
still fits in 250 characters. -/
def assemble_tweet_text (c : GeneratedContent) : Str :=
  match c.article_url with
  | some u => if c.text.length + u.length + 1 ≤ 250 then c.text ++ '\n' :: u else c.text
  | none => c.text

/-- The tweet submitted to `create_tweet`: its text and the optional media id
attached to it. -/
structure TweetAttempt where
  text : Str
  media_id : Option Nat

/-- `post_to_twitter` (app.py lines 784-847): returns the success flag and
the tweet that was submitted (`none` when the API is unconfigured and no call
is made).  A failed image download or upload only clears the media id (app.py
lines 829-833); the tweet is still created. -/
def post_to_twitter (env : TwitterEnv) (c : GeneratedContent) :
    Bool × Option TweetAttempt :=
  if env.api_configured = false then (false, none)
  else
    let media_id : Option Nat :=
      match c.image_url with
      | none => none
      | some _ =>
        if env.img_download_ok && env.media_upload_ok then some env.media_id_val
        else none
    (env.create_tweet_ok, some ⟨assemble_tweet_text c, media_id⟩)

/-- The record appended to `self.posted_content` on success (app.py lines
859-866), with the timestamp taken as a parameter. -/
structure PostRecord where
  platform : Str
  content : Str
  image_url : Option Str
  post_type : Str
  article_url : Option Str
  timestamp : Str

/-- Builds the history record of `post_content` (app.py lines 859-866). -/
def mk_post_record (platform : Str) (c : GeneratedContent) (now : Str) : PostRecord :=
  ⟨platform, c.text, c.image_url, c.post_type, c.article_url, now⟩

/-- `post_content` (app.py lines 849-873): only the "twitter" branch exists;
the result is the success flag, the updated history, and whether
`save_posted_content` was invoked. -/
def post_content (env : TwitterEnv) (platform : Str) (c : GeneratedContent)
    (history : List PostRecord) (now : Str) : Bool × List PostRecord × Bool :=
  let success := if platform = str ("twitter") then (post_to_twitter env c).1 else false
  if success then (true, history ++ [mk_post_record platform c now], true)
  else (false, history, false)

/-! ## Scheduler (app.py lines 1235-1280, main.py lines 158-182) -/

/-- One registered `schedule` job: the `schedule.every().<day>.at(time).do(task)`
call that created it. -/
structure SchedJob where
  day : Str
  fire_time : Str
  task : Str
deriving DecidableEq

/-- The weekday/weekend time lists of `self.production_schedule`. -/
structure ScheduleConfig where
  weekday_times : List Str
  weekend_times : List Str

/-- The default `self.production_schedule` (app.py lines 58-62). -/
def default_production_schedule : ScheduleConfig :=
  ⟨[str ("09:00"), str ("14:00"), str ("18:00")],
   [str ("11:00"), str ("15:00"), str ("19:00")]⟩

/-- The five weekday registrations made for each weekday time slot
(app.py lines 1249-1253). -/
def weekday_names : List Str :=
  [str ("monday"), str ("tuesday"), str ("wednesday"), str ("thursday"), str ("friday")]

/-- The two weekend registrations made for each weekend time slot
(app.py lines 1257-1258). -/
def weekend_names : List Str :=
  [str ("saturday"), str ("sunday")]

/-- Registers one job per (time slot, day) pair, in the order of the Python
loops: outer loop over time slots, one `schedule.every().<day>` call per day. -/
def jobs_for (days : List Str) (task : Str) : List Str → List SchedJob
  | [] => []
  | t :: ts => days.map (fun d => ⟨d, t, task⟩) ++ jobs_for days task ts

/-- The daily analytics job `schedule.every().day.at("23:00")` (app.py line 1261). -/
def analytics_job : SchedJob := ⟨str ("day"), str ("23:00"), str ("analytics")⟩

/-- `run_production_mode` (app.py lines 1235-1274) as a transformation of the
global `schedule` job registry: outside production mode nothing happens;
otherwise the registry is cleared and repopulated. -/
def run_production_mode (mode : Str) (cfg : ScheduleConfig)
    (existing : List SchedJob) : List SchedJob :=
  if mode ≠ str ("production") then existing
  else
    jobs_for weekday_names (str ("daily_post")) cfg.weekday_times
      ++ jobs_for weekend_names (str ("daily_post")) cfg.weekend_times
      ++ [analytics_job]

/-- The shared mutable state read by the background polling loop: the run
flag and the registered jobs. -/
structure SchedulerState where
  is_running : Bool
  jobs : List SchedJob

/-- `SocialMediaAIAgent.stop_production_mode` (app.py lines 1276-1280):
clear the flag and clear every registered job. -/
def stop_production_mode (_s : SchedulerState) : SchedulerState := ⟨false, []⟩

/-- `SocialMediaManager.stop_production_mode` (main.py lines 158-168): when
running, only the flag is cleared; the `schedule` registry is left as is. -/
def manager_stop_production_mode (s : SchedulerState) : SchedulerState :=
  if s.is_running then ⟨false, s.jobs⟩ else s

/-- The background polling loop (app.py lines 1266-1269, likewise main.py
lines 180-182): at each polling instant it re-reads the flag; while set it
runs the due jobs and sleeps one interval, once cleared it exits.  `ticks`
enumerates the successive polling instants, `due t j` whether job `j` is due
at instant `t`.  Returns the executed jobs and the number of loop iterations
performed. -/
def scheduler_loop (s : SchedulerState) (due : Nat → SchedJob → Bool) :
    List Nat → List SchedJob × Nat
  | [] => ([], 0)
  | t :: ts =>
    if s.is_running then
      let fired := s.jobs.filter (due t)
      let rest := scheduler_loop s due ts
      (fired ++ rest.1, rest.2 + 1)
    else ([], 0)

/-! ## Helper lemmas -/

theorem three_le_platform_max (p : Str) : 3 ≤ platform_max_length p := by
  unfold platform_max_length
  repeat' split
  all_goals norm_num

theorem ellipsis_length : ellipsis.length = 3 := by decide

theorem truncate_length_le (s : Str) (m : Nat) (h3 : 3 ≤ m) :
    (truncate_to_limit s m).length ≤ m := by
  unfold truncate_to_limit
  split
  · rename_i h
    rw [List.length_append, List.length_take, ellipsis_length,
      Nat.min_eq_left (by omega)]
    omega
  · rename_i h
    omega

theorem truncate_of_lt (s : Str) (m : Nat) (h3 : 3 ≤ m) (h : m < s.length) :
    truncate_to_limit s m = s.take (m - 3) ++ ellipsis ∧
      (truncate_to_limit s m).length = m := by
  unfold truncate_to_limit
  rw [if_pos h]
  refine ⟨rfl, ?_⟩
  rw [List.length_append, List.length_take, ellipsis_length,
    Nat.min_eq_left (by omega)]
  omega

theorem choiceD_mem (l : List Str) (k : Nat) (h : l ≠ []) : choiceD l k ∈ l := by
  unfold choiceD
  have hl : 0 < l.length := List.length_pos.mpr h
  have hk : k % l.length < l.length := Nat.mod_lt _ hl
  rw [List.getD_eq_getElem?_getD, List.getElem?_eq_getElem hk]
  exact List.getElem_mem _

theorem scheduler_loop_stopped (s : SchedulerState) (h : s.is_running = false)
    (due : Nat → SchedJob → Bool) (ticks : List Nat) :
    scheduler_loop s due ticks = ([], 0) := by
  cases ticks <;> simp [scheduler_loop, h]

theorem jobs_for_length (days : List Str) (task : Str) (ts : List Str) :
    (jobs_for days task ts).length = days.length * ts.length := by
  induction ts with
  | nil => simp [jobs_for]
  | cons t ts ih =>
    simp only [jobs_for, List.length_append, List.length_map, ih, List.length_cons]
    ring

theorem splitAux_append_delim (p : Char → Bool) (d : Char) (hd : p d = false)
    (a b : List Char) :
    ∀ acc, splitAux p (a ++ d :: b) acc = splitAux p a acc ++ splitAux p b [] := by
  induction a with
  | nil =>
    intro acc
    simp only [List.nil_append, splitAux, hd]
    by_cases h : acc.isEmpty <;> simp [splitAux, h]
  | cons c a ih =>
    intro acc
    simp only [List.cons_append, splitAux]
    by_cases hc : p c
    · simp [hc, ih]
    · by_cases ha : acc.isEmpty <;> simp [hc, ha, ih]

theorem fieldsBy_append_delim (p : Char → Bool) (d : Char) (hd : p d = false)
    (a b : List Char) :
    fieldsBy p (a ++ d :: b) = fieldsBy p a ++ fieldsBy p b :=
  splitAux_append_delim p d hd a b []

theorem wsTokens_append_ws (a b : Str) (d : Char) (hd : d.isWhitespace = true) :
    wsTokens (a ++ d :: b) = wsTokens a ++ wsTokens b :=
  fieldsBy_append_delim _ d (by simp [hd]) a b

theorem splitAux_sat (p : Char → Bool) :
    ∀ (l acc : List Char), (∀ c ∈ acc, p c = true) →
      ∀ t ∈ splitAux p l acc, ∀ c ∈ t, p c = true := by
  intro l
  induction l with
  | nil =>
    intro acc hacc t ht c hc
    unfold splitAux at ht
    split at ht
    · cases ht
    · rw [List.mem_singleton.mp ht] at hc
      exact hacc c (List.mem_reverse.mp hc)
  | cons d l ih =>
    intro acc hacc t ht c hc
    unfold splitAux at ht
    by_cases hp : p d
    · rw [if_pos hp] at ht
      refine ih (d :: acc) ?_ t ht c hc
      intro x hx
      rcases List.mem_cons.mp hx with h | h
      · rw [h]; exact hp
      · exact hacc x h
    · rw [if_neg hp] at ht
      split at ht
      · exact ih [] (by simp) t ht c hc
      · rcases List.mem_cons.mp ht with h | h
        · rw [h] at hc
          exact hacc c (List.mem_reverse.mp hc)
        · exact ih [] (by simp) t h c hc

theorem fieldsBy_sat (p : Char → Bool) (l : List Char) :
    ∀ t ∈ fieldsBy p l, ∀ c ∈ t, p c = true :=
  splitAux_sat p l [] (by simp)

theorem splitAux_of_all (p : Char → Bool) :
    ∀ (l acc : List Char), (∀ c ∈ l, p c = true) →
      splitAux p l acc =
        if acc.reverse ++ l = [] then [] else [acc.reverse ++ l] := by
  intro l
  induction l with
  | nil =>
    intro acc _
    unfold splitAux
    cases acc <;> simp
  | cons c l ih =>
    intro acc hall
    unfold splitAux
    rw [if_pos (hall c (List.mem_cons_self c l))]
    rw [ih (c :: acc) (fun x hx => hall x (List.mem_cons_of_mem c hx))]
    simp

theorem fieldsBy_single (p : Char → Bool) (l : List Char) (hne : l ≠ [])
    (hall : ∀ c ∈ l, p c = true) : fieldsBy p l = [l] := by
  unfold fieldsBy
  rw [splitAux_of_all p l [] hall]
  simp [hne]

theorem wsTokens_single (l : Str) (hne : l ≠ [])
    (hall : ∀ c ∈ l, c.isWhitespace = false) : wsTokens l = [l] :=
  fieldsBy_single _ l hne (fun c hc => by simp [hall c hc])

theorem isWordChar_not_ws (c : Char) (h : isWordChar c = true) :
    c.isWhitespace = false := by
  by_contra hw
  simp only [Bool.not_eq_false] at hw
  have hcases : ((c = ' ' ∨ c = '\t') ∨ c = '\x0d') ∨ c = '\n' := by
    simpa [Char.isWhitespace] using hw
  rcases hcases with ((h' | h') | h') | h' <;> rw [h'] at h <;>
    exact absurd h (by decide)

theorem hashtag_head_token (h1 : Str) (rest : List Str) (hne : h1 ≠ [])
    (hall : ∀ c ∈ h1, c.isWhitespace = false)
    (hstart : startsWithChar h1 '#' = true) :
    has_hashtag_token (join_space (h1 :: rest)) = true := by
  cases rest with
  | nil =>
    unfold has_hashtag_token
    rw [show join_space [h1] = h1 from rfl, wsTokens_single h1 hne hall]
    simp [hstart]
  | cons r rs =>
    unfold has_hashtag_token
    rw [show join_space (h1 :: r :: rs) = h1 ++ ' ' :: join_space (r :: rs) from rfl,
      wsTokens_append_ws _ _ ' ' (by decide), wsTokens_single h1 hne hall]
    simp [hstart]

theorem has_hashtag_append_ws (a b : Str) (d : Char) (hd : d.isWhitespace = true)
    (ha : has_hashtag_token a = true) : has_hashtag_token (a ++ d :: b) = true := by
  unfold has_hashtag_token at *
  rw [wsTokens_append_ws a b d hd, List.any_append, ha]
  rfl

theorem hf_add_hashtags_spec (content topic : Str)
    (hw : (wordTokens topic).any (fun w => 3 < w.length) = true) :
    has_hashtag_token (hf_add_hashtags content topic) = true := by
  unfold hf_add_hashtags
  by_cases h : has_hashtag_token content = true
  · rw [if_pos h]; exact h
  · rw [if_neg h]
    have hne : hf_hashtags topic ≠ [] := by
      unfold hf_hashtags
      obtain ⟨w, hwmem, hwlen⟩ := List.any_eq_true.mp hw
      simp only [ne_eq, List.map_eq_nil_iff, List.filter_eq_nil_iff]
      push_neg
      exact ⟨w, hwmem, hwlen⟩
    rw [if_neg (by simpa using hne)]
    obtain ⟨t1, trest, htake⟩ : ∃ t1 trest, (hf_hashtags topic).take 2 = t1 :: trest := by
      cases hh : hf_hashtags topic with
      | nil => exact absurd hh hne
      | cons x xs => exact ⟨x, xs.take 1, by simp [hh]⟩
    have hmem : t1 ∈ hf_hashtags topic :=
      List.take_subset 2 _ (htake ▸ List.mem_cons_self t1 trest)
    obtain ⟨w, hwmem, hweq⟩ := List.mem_map.mp hmem
    have hwchars : ∀ c ∈ w, isWordChar c = true :=
      fieldsBy_sat isWordChar topic w (List.mem_filter.mp hwmem).1
    have ht1chars : ∀ c ∈ t1, c.isWhitespace = false := by
      intro c hc
      rw [← hweq] at hc
      rcases List.mem_cons.mp hc with h' | h'
      · rw [h']; decide
      · exact isWordChar_not_ws c (hwchars c h')
    have ht1ne : t1 ≠ [] := by rw [← hweq]; simp
    have ht1start : startsWithChar t1 '#' = true := by rw [← hweq]; rfl
    have hsplit : content ++ str ("\n\n") ++ join_space ((hf_hashtags topic).take 2)
        = content ++ '\n' :: ('\n' :: join_space ((hf_hashtags topic).take 2)) := by
      simp [str]
    rw [hsplit]
    unfold has_hashtag_token
    rw [wsTokens_append_ws content _ '\n' (by decide)]
    have hskip : wsTokens ('\n' :: join_space ((hf_hashtags topic).take 2))
        = wsTokens (join_space ((hf_hashtags topic).take 2)) := by
      have hnl : ('\n').isWhitespace = true := by decide
      simp [wsTokens, fieldsBy, splitAux, hnl]
    rw [hskip, htake, List.any_append]
    have := hashtag_head_token t1 trest ht1ne ht1chars ht1start
    unfold has_hashtag_token at this
    rw [this]
    simp

theorem engagement_has_q (k : Nat) :
    containsChar
      (engagement_questions.getD (k % engagement_questions.length) []) '?' = true := by
  have h5 : k % 5 = 0 ∨ k % 5 = 1 ∨ k % 5 = 2 ∨ k % 5 = 3 ∨ k % 5 = 4 := by omega
  rw [show engagement_questions.length = 5 from rfl]
  rcases h5 with h | h | h | h | h <;> rw [h] <;> decide

/-! ## Claims -/

/-- C4: `post_content` is a total boolean-returning function (it never lets an
exception of the platform call escape, `post_to_twitter` catching everything);
when it returns `true` the record is appended to the in-memory history and
`save_posted_content` is invoked, and when it returns `false` the history and
the persisted file are untouched. -/
theorem c4_post_content_history (env : TwitterEnv) (platform : Str)
    (c : GeneratedContent) (history : List PostRecord) (now : Str) :
    (post_content env platform c history now).2.1 =
      (if (post_content env platform c history now).1 then
        history ++ [mk_post_record platform c now] else history) ∧
    (post_content env platform c history now).2.2 =
      (post_content env platform c history now).1 := by
  unfold post_content
  split
  · cases hX : (post_to_twitter env c).1 <;> simp [hX]
  · simp

/-- C5: when the content carries an image reference and the image download or
the media upload fails, `post_to_twitter` still submits a text-only tweet with
no media handle, and the overall result is whatever `create_tweet` returns —
the image step alone never forces a failure. -/
theorem c5_image_fallback (env : TwitterEnv) (c : GeneratedContent) (u : Str)
    (himg : c.image_url = some u) (hapi : env.api_configured = true)
    (hfail : (env.img_download_ok && env.media_upload_ok) = false) :
    post_to_twitter env c = (env.create_tweet_ok, some ⟨assemble_tweet_text c, none⟩) := by
  simp [post_to_twitter, hapi, himg, hfail]

theorem c5_witness :
    post_to_twitter ⟨true, false, false, 0, true⟩
      ⟨str ("hi"), some (str ("https://img.example/a.jpg")), str ("tip"), none⟩ =
      (true, some ⟨str ("hi"), none⟩) := by
  have h := c5_image_fallback ⟨true, false, false, 0, true⟩
    ⟨str ("hi"), some (str ("https://img.example/a.jpg")), str ("tip"), none⟩
    (str ("https://img.example/a.jpg")) rfl rfl rfl
  simpa [assemble_tweet_text] using h

/-- C8 counterexample: with the default schedule (3 weekday and 3 weekend time
slots), `run_production_mode` registers 22 jobs — each weekday slot creates
five day-jobs and each weekend slot two — not weekday + weekend slots plus the
analytics job (7). -/
theorem c8_job_count_counterexample :
    ¬ ((run_production_mode (str ("production")) default_production_schedule []).length =
        default_production_schedule.weekday_times.length +
          default_production_schedule.weekend_times.length + 1) := by
  decide

/-- C8 amended: after `run_production_mode` in production mode, the number of
registered jobs is five per configured weekday time slot plus two per weekend
time slot, plus the single daily analytics job. -/
theorem c8_job_count_amended (cfg : ScheduleConfig) (existing : List SchedJob) :
    (run_production_mode (str ("production")) cfg existing).length =
      5 * cfg.weekday_times.length + 2 * cfg.weekend_times.length + 1 := by
  unfold run_production_mode
  rw [if_neg (by simp)]
  simp only [List.length_append, jobs_for_length, List.length_singleton]
  rw [show weekday_names.length = 5 from rfl, show weekend_names.length = 2 from rfl]

/-- C9 counterexample: the manager-level stop (main.py lines 158-168) clears
only the run flag; a job registered in the global `schedule` registry is still
registered afterwards, so "zero jobs remain registered" fails for this stop
operation. -/
theorem c9_stop_counterexample :
    ¬ ((manager_stop_production_mode
        ⟨true, [⟨str ("day"), str ("12:30"), str ("daily_post")⟩]⟩).jobs = []) := by
  decide

/-- C9 amended: the agent-level stop (app.py lines 1276-1280) clears the flag
and empties the job registry, and a polling loop that observes the cleared
flag exits at its first check without executing any job; the manager-level
stop (main.py lines 158-168) clears the flag — so its loop also exits without
executing anything — but leaves the registered jobs in place. -/
theorem c9_stop_amended (s : SchedulerState) (due : Nat → SchedJob → Bool)
    (ticks : List Nat) :
    (stop_production_mode s).is_running = false ∧
    (stop_production_mode s).jobs = [] ∧
    scheduler_loop (stop_production_mode s) due ticks = ([], 0) ∧
    (manager_stop_production_mode s).is_running = false ∧
    (manager_stop_production_mode s).jobs = s.jobs ∧
    scheduler_loop (manager_stop_production_mode s) due ticks = ([], 0) := by
  have hm : (manager_stop_production_mode s).is_running = false ∧
      (manager_stop_production_mode s).jobs = s.jobs := by
    unfold manager_stop_production_mode
    split
    · exact ⟨rfl, rfl⟩
    · rename_i h
      simp only [Bool.not_eq_true] at h
      exact ⟨h, rfl⟩
  exact ⟨rfl, rfl, scheduler_loop_stopped _ rfl due ticks, hm.1, hm.2,
    scheduler_loop_stopped _ hm.1 due ticks⟩

/-- C10: for any platform other than "twitter", `post_content` returns
`False`, appends nothing to the posted-content history, and never invokes
`save_posted_content`. -/
theorem c10_non_twitter_noop (env : TwitterEnv) (platform : Str)
    (c : GeneratedContent) (history : List PostRecord) (now : Str)
    (h : platform ≠ str ("twitter")) :
    post_content env platform c history now = (false, history, false) := by
  simp [post_content, h]

theorem c10_witness :
    post_content ⟨true, true, true, 0, true⟩ (str ("facebook"))
      ⟨str ("hi"), none, str ("tip"), none⟩ [] (str ("2024-01-01T00:00:00")) =
      (false, [], false) :=
  c10_non_twitter_noop _ _ _ _ _ (by decide)

/-- C2 counterexample: when a strategy returns a non-empty list whose every
element is rejected by the post-filter (here: the scraper returns one URL),
`fetch_trends` returns the empty list, refuting "returns a non-empty sequence
for every possible outcome of the discovery strategies". -/
theorem c2_nonempty_counterexample :
    fetch_trends [str ("twitter")]
      ⟨none, none, some [str ("http://trending.example/one")],
        [str ("AI ethics")]⟩ = [] := by
  decide

/-- C2 amended: `fetch_trends` never propagates a strategy failure, and when
every external strategy raises or returns an empty list it returns exactly the
static fallback sample — non-empty, since `random.sample` draws 3 to 5
elements of the static list and every static topic passes the post-filter.
But a strategy that returns only filtered-out items makes the result empty;
`run_daily_post` then substitutes the hardcoded 3-topic emergency list, so the
pipeline as a whole still never runs out of topics. -/
theorem c2_fallback_chain_amended (o : TrendOutcomes)
    (h1 : o.api_v1.getD [] = []) (h2 : o.api_v2.getD [] = [])
    (h3 : o.scraping.getD [] = [])
    (hne : o.sample ≠ [])
    (hsub : ∀ t ∈ o.sample, t ∈ fallback_topics) :
    fetch_trends [str ("twitter")] o = o.sample ∧
      fetch_trends [str ("twitter")] o ≠ [] ∧
      ∀ fetched : List Str, run_daily_topics fetched ≠ [] := by
  have hchain : trend_chain o = o.sample := by
    unfold trend_chain
    simp [h1, h2, h3]
  have hval : ∀ t ∈ o.sample, keep_trend t = true := by
    intro t ht
    have hall : fallback_topics.all keep_trend = true := by decide
    exact List.all_eq_true.mp hall t (hsub t ht)
  have hfetch : fetch_trends [str ("twitter")] o = o.sample := by
    simp only [fetch_trends]
    rw [if_pos (by simp), hchain]
    exact List.filter_eq_self.mpr hval
  refine ⟨hfetch, by rw [hfetch]; exact hne, ?_⟩
  intro fetched
  unfold run_daily_topics
  split
  · simp [emergency_topics]
  · rename_i hf
    simpa using hf

theorem c2_witness :
    fetch_trends [str ("twitter")]
      ⟨none, none, none,
        [str ("AI ethics"), str ("climate solutions"), str ("data privacy")]⟩ ≠ [] :=
  (c2_fallback_chain_amended
    ⟨none, none, none,
      [str ("AI ethics"), str ("climate solutions"), str ("data privacy")]⟩
    rfl rfl rfl (by decide) (by decide)).2.1

/-- C3: every topic kept by the post-filter of `fetch_trends` is non-empty,
shorter than 50 characters, and does not start with the URL prefix `http`
(the check the code performs for "starts with a URL scheme"); conversely,
every empty, over-long, or http-prefixed topic is excluded from the returned
list. -/
theorem c3_trend_filter (platforms : List Str) (o : TrendOutcomes) (t : Str) :
    (t ∈ fetch_trends platforms o →
      t ≠ [] ∧ t.length < 50 ∧ (str ("http")).isPrefixOf t = false) ∧
    ((t = [] ∨ 50 ≤ t.length ∨ (str ("http")).isPrefixOf t = true) →
      t ∉ fetch_trends platforms o) := by
  have key : ∀ u : Str, u ∈ fetch_trends platforms o → keep_trend u = true := by
    intro u hu
    simp only [fetch_trends] at hu
    exact (List.mem_filter.mp hu).2
  constructor
  · intro ht
    have hk := key t ht
    unfold keep_trend at hk
    simp only [Bool.and_eq_true, Bool.not_eq_true', decide_eq_true_eq] at hk
    obtain ⟨⟨hne, hlen⟩, hpre⟩ := hk
    refine ⟨?_, hlen, hpre⟩
    intro hnil
    subst hnil
    simp at hne
  · intro hbad ht
    have hk := key t ht
    unfold keep_trend at hk
    simp only [Bool.and_eq_true, Bool.not_eq_true', decide_eq_true_eq] at hk
    obtain ⟨⟨hne, hlen⟩, hpre⟩ := hk
    rcases hbad with hnil | hlong | hhttp
    · subst hnil; simp at hne
    · omega
    · rw [hhttp] at hpre; cases hpre

theorem c3_witness :
    (str ("hello world") ≠ [] ∧ (str ("hello world")).length < 50 ∧
      (str ("http")).isPrefixOf (str ("hello world")) = false) ∧
    str ("http://spam.example") ∉
      fetch_trends [str ("twitter")]
        ⟨some [str ("hello world"), str ("http://spam.example")], none, none, []⟩ :=
  ⟨(c3_trend_filter [str ("twitter")]
      ⟨some [str ("hello world"), str ("http://spam.example")], none, none, []⟩
      (str ("hello world"))).1 (by decide),
   (c3_trend_filter [str ("twitter")]
      ⟨some [str ("hello world"), str ("http://spam.example")], none, none, []⟩
      (str ("http://spam.example"))).2 (Or.inr (Or.inr (by decide)))⟩

/-- C7: `get_relevant_image_url` consults the fixed category table with exact
case-insensitive substring match first, then partial word-overlap match, then
the default category; in particular topic "technology trends 2024" draws from
the technology list and topic "xyzabc123" draws from the default list. -/
theorem c7_image_matching (topic : Str) (k : Nat) :
    (∀ urls, exact_match (toLowerStr topic) = some urls →
      get_relevant_image_url topic k = choiceD urls k) ∧
    (exact_match (toLowerStr topic) = none →
      ∀ urls, partial_match (toLowerStr topic) = some urls →
        get_relevant_image_url topic k = choiceD urls k) ∧
    (exact_match (toLowerStr topic) = none →
      partial_match (toLowerStr topic) = none →
        get_relevant_image_url topic k = choiceD default_images k) ∧
    get_relevant_image_url (str ("technology trends 2024")) k ∈ technology_images ∧
    get_relevant_image_url (str ("xyzabc123")) k ∈ default_images := by
  have h1 : ∀ (tp : Str) urls, exact_match (toLowerStr tp) = some urls →
      get_relevant_image_url tp k = choiceD urls k := by
    intro tp urls h
    simp only [get_relevant_image_url]
    rw [h]
  have h2 : ∀ (tp : Str), exact_match (toLowerStr tp) = none →
      ∀ urls, partial_match (toLowerStr tp) = some urls →
        get_relevant_image_url tp k = choiceD urls k := by
    intro tp he urls hp
    simp only [get_relevant_image_url]
    rw [he, hp]
  have h3 : ∀ (tp : Str), exact_match (toLowerStr tp) = none →
      partial_match (toLowerStr tp) = none →
        get_relevant_image_url tp k = choiceD default_images k := by
    intro tp he hp
    simp only [get_relevant_image_url]
    rw [he, hp]
  refine ⟨h1 topic, h2 topic, h3 topic, ?_, ?_⟩
  · rw [h1 (str ("technology trends 2024")) technology_images (by decide)]
    exact choiceD_mem _ _ (by decide)
  · rw [h3 (str ("xyzabc123")) (by decide) (by decide)]
    exact choiceD_mem _ _ (by decide)

theorem c7_witness :
    get_relevant_image_url (str ("health tips")) 1 = choiceD health_images 1 :=
  (c7_image_matching (str ("health tips")) 1).1 health_images (by decide)

/-- C1: for every topic, platform, and generation strategy, the text of the
returned content is at most the platform maximum long (250 twitter, 400
facebook, 300 instagram, 300 otherwise), and whenever the pre-truncation text
exceeds the maximum, the result is exactly its first max-3 characters
followed by the three-character ellipsis, of total length exactly the
maximum.  The pre-truncation texts are the stripped Gemini reply, the
post-processed Hugging Face reply, and the chosen fallback template. -/
theorem c1_generate_text_truncation
    (response generated topic platform post_type : Str)
    (include_image : Bool) (img_pick q_pick t_pick : Nat) (news_url : Option Str) :
    ((generate_content_gemini response topic platform post_type include_image
        img_pick news_url).text.length ≤ platform_max_length platform ∧
      (platform_max_length platform < response.length →
        (generate_content_gemini response topic platform post_type include_image
            img_pick news_url).text =
          response.take (platform_max_length platform - 3) ++ ellipsis ∧
        (generate_content_gemini response topic platform post_type include_image
            img_pick news_url).text.length = platform_max_length platform)) ∧
    ((generate_content_huggingface generated topic platform post_type
        include_image img_pick q_pick news_url).text.length ≤
          platform_max_length platform ∧
      (platform_max_length platform <
          (hf_post_process generated topic post_type q_pick).length →
        (generate_content_huggingface generated topic platform post_type
            include_image img_pick q_pick news_url).text =
          (hf_post_process generated topic post_type q_pick).take
            (platform_max_length platform - 3) ++ ellipsis ∧
        (generate_content_huggingface generated topic platform post_type
            include_image img_pick q_pick news_url).text.length =
          platform_max_length platform)) ∧
    ((generate_content_fallback topic platform post_type t_pick include_image
        img_pick news_url).text.length ≤ platform_max_length platform ∧
      (platform_max_length platform <
          (fallback_choice post_type topic t_pick).length →
        (generate_content_fallback topic platform post_type t_pick include_image
            img_pick news_url).text =
          (fallback_choice post_type topic t_pick).take
            (platform_max_length platform - 3) ++ ellipsis ∧
        (generate_content_fallback topic platform post_type t_pick include_image
            img_pick news_url).text.length = platform_max_length platform)) ∧
    platform_max_length (str ("twitter")) = 250 ∧
    platform_max_length (str ("facebook")) = 400 ∧
    platform_max_length (str ("instagram")) = 300 ∧
    ((platform ≠ str ("twitter") ∧ platform ≠ str ("facebook") ∧
        platform ≠ str ("instagram")) → platform_max_length platform = 300) := by
  have h3 := three_le_platform_max platform
  refine ⟨⟨truncate_length_le _ _ h3, fun h => truncate_of_lt _ _ h3 h⟩,
    ⟨truncate_length_le _ _ h3, fun h => truncate_of_lt _ _ h3 h⟩,
    ⟨truncate_length_le _ _ h3, fun h => truncate_of_lt _ _ h3 h⟩,
    by decide, by decide, by decide, ?_⟩
  intro ⟨ht, hf, hi⟩
  simp [platform_max_length, ht, hf, hi]

set_option maxRecDepth 40000 in
theorem c1_witness :
    ((generate_content_gemini (List.replicate 260 'a') (List.replicate 150 'z')
        (str ("twitter")) (str ("tip")) false 0 none).text.length =
      platform_max_length (str ("twitter"))) ∧
    ((generate_content_huggingface (List.replicate 251 'b')
        (List.replicate 150 'z') (str ("twitter")) (str ("tip")) false 0 0
        none).text.length = platform_max_length (str ("twitter"))) ∧
    ((generate_content_fallback (List.replicate 150 'z') (str ("twitter"))
        (str ("tip")) 0 false 0 none).text.length =
      platform_max_length (str ("twitter"))) ∧
    platform_max_length (str ("linkedin")) = 300 :=
  ⟨((c1_generate_text_truncation (List.replicate 260 'a')
      (List.replicate 251 'b') (List.replicate 150 'z') (str ("twitter"))
      (str ("tip")) false 0 0 0 none).1.2 (by decide)).2,
   ((c1_generate_text_truncation (List.replicate 260 'a')
      (List.replicate 251 'b') (List.replicate 150 'z') (str ("twitter"))
      (str ("tip")) false 0 0 0 none).2.1.2 (by decide)).2,
   ((c1_generate_text_truncation (List.replicate 260 'a')
      (List.replicate 251 'b') (List.replicate 150 'z') (str ("twitter"))
      (str ("tip")) false 0 0 0 none).2.2.1.2 (by decide)).2,
   (c1_generate_text_truncation [] [] [] (str ("linkedin")) (str ("tip"))
      false 0 0 0 none).2.2.2.2.2.2 ⟨by decide, by decide, by decide⟩⟩

/-- C6 counterexample: raw text "Buy low sell high" has no hashtag token, and
for topic "AI" (whose only word token has length 2, so no hashtag is built)
the post-processed Hugging Face text still has no hashtag token — the
post-processing does not guarantee a hashtag is present when missing. -/
theorem c6_postprocess_counterexample :
    has_hashtag_token (str ("Buy low sell high")) = false ∧
    has_hashtag_token
      (generate_content_huggingface (str ("Buy low sell high")) (str ("AI"))
        (str ("twitter")) (str ("tip")) false 0 0 none).text = false := by
  decide

/-- C6 amended: the Hugging Face post-processing guarantees a hashtag token
and a question mark in the returned text provided the topic has at least one
word token longer than 3 characters (otherwise no hashtag can be built), the
post type is not "question" (for which no engagement question is appended),
and the post-processed text fits within the platform limit (truncation could
otherwise cut the appended material off). -/
theorem c6_postprocess_amended (generated topic platform post_type : Str)
    (include_image : Bool) (img_pick q_pick : Nat) (news_url : Option Str)
    (hw : (wordTokens topic).any (fun w => 3 < w.length) = true)
    (hq : post_type ≠ str ("question"))
    (hlen : (hf_post_process generated topic post_type q_pick).length ≤
      platform_max_length platform) :
    has_hashtag_token
      (generate_content_huggingface generated topic platform post_type
        include_image img_pick q_pick news_url).text = true ∧
    containsChar
      (generate_content_huggingface generated topic platform post_type
        include_image img_pick q_pick news_url).text '?' = true := by
  have htext : (generate_content_huggingface generated topic platform post_type
      include_image img_pick q_pick news_url).text =
      hf_post_process generated topic post_type q_pick := by
    show truncate_to_limit _ _ = _
    unfold truncate_to_limit
    rw [if_neg (by omega)]
  rw [htext]
  have hA : has_hashtag_token (hf_add_hashtags generated topic) = true :=
    hf_add_hashtags_spec generated topic hw
  unfold hf_post_process hf_add_engagement
  split
  · rename_i hcond
    rcases hcond with hc | hpt
    · exact ⟨hA, hc⟩
    · exact absurd hpt hq
  · constructor
    · exact has_hashtag_append_ws _ _ ' ' (by decide) hA
    · have hq' := engagement_has_q q_pick
      unfold containsChar at *
      rw [List.any_append, List.any_cons, hq']
      simp

theorem c6_witness :
    has_hashtag_token
      (generate_content_huggingface (str ("Great insights here"))
        (str ("artificial intelligence")) (str ("twitter")) (str ("tip"))
        false 0 0 none).text = true ∧
    containsChar
      (generate_content_huggingface (str ("Great insights here"))
        (str ("artificial intelligence")) (str ("twitter")) (str ("tip"))
        false 0 0 none).text '?' = true :=
  c6_postprocess_amended (str ("Great insights here"))
    (str ("artificial intelligence")) (str ("twitter")) (str ("tip"))
    false 0 0 none (by decide) (by decide) (by decide)

end App

